import Mathlib

/-!
Verification of the auto_stock_trading repository's core trading logic.

The Python source (strategy.py, kis_open_api.py, api.py) is embedded
shallowly: floats become rationals, Python `None` becomes `Option`,
Python truthiness on numeric values is modelled by `truthyQ`, the
retrying network layer becomes a fuel-indexed function over a stream of
per-attempt outcomes, and the strategy cycle becomes a function that
returns the trace of outbound API calls it would make.
-/

namespace AutoTrading

/-- Python truthiness of an optional numeric value: `None` and `0` are
falsy, every other number is truthy. -/
def truthyQ : Option ℚ → Bool
  | none => false
  | some x => x != 0

/-- Python's slice `l[-n:]`: for `n = 0` this is `l[0:]`, the whole list;
otherwise the last `n` elements (all of `l` when `n ≥ len(l)`). -/
def pySliceLast (l : List ℚ) (n : Nat) : List ℚ :=
  if n = 0 then l else l.drop (l.length - n)

/-- Python's `int()` applied to a rational: truncation toward zero. -/
def pyTrunc (x : ℚ) : ℤ :=
  if x < 0 then ⌈x⌉ else ⌊x⌋

/-! ### Indicator engine (strategy.py lines 53-74) -/

/-- `calculate_moving_average(prices, period)`:
`sum(prices[-period:]) / period if len(prices) >= period else None`. -/
def calculate_moving_average (prices : List ℚ) (period : Nat) : Option ℚ :=
  if period ≤ prices.length then some ((pySliceLast prices period).sum / period)
  else none

/-- The consecutive deltas `[prices[i] - prices[i-1] for i in range(1, len(prices))]`. -/
def deltas (prices : List ℚ) : List ℚ :=
  List.zipWith (fun a b => a - b) prices.tail prices

/-- `gains = [delta if delta > 0 else 0 for delta in deltas]`. -/
def gains (prices : List ℚ) : List ℚ :=
  (deltas prices).map (fun d => if 0 < d then d else 0)

/-- `losses = [-delta if delta < 0 else 0 for delta in deltas]`. -/
def losses (prices : List ℚ) : List ℚ :=
  (deltas prices).map (fun d => if d < 0 then -d else 0)

/-- `avg_gain = sum(gains[-period:]) / period`. -/
def avg_gain (prices : List ℚ) (period : Nat) : ℚ :=
  (pySliceLast (gains prices) period).sum / period

/-- `avg_loss = sum(losses[-period:]) / period`. -/
def avg_loss (prices : List ℚ) (period : Nat) : ℚ :=
  (pySliceLast (losses prices) period).sum / period

/-- `calculate_rsi(prices, period=14)` from strategy.py lines 57-74. -/
def calculate_rsi (prices : List ℚ) (period : Nat := 14) : Option ℚ :=
  if prices.length < period + 1 then none
  else if avg_loss prices period = 0 then some 100
  else some (100 - 100 / (1 + avg_gain prices period / avg_loss prices period))

/-! ### Analysis records and signal evaluation (strategy.py lines 100-158) -/

/-- The analysis dict built by `analyze_stock` (strategy.py lines 100-110). -/
structure Analysis where
  stock_code : String
  current_price : ℚ
  change_rate : ℚ
  volume : ℚ
  avg_volume : ℚ
  ma5 : Option ℚ
  ma20 : Option ℚ
  rsi : Option ℚ
  volume_ratio : ℚ
deriving DecidableEq

/-- One holding dict built by `get_portfolio_status` (strategy.py lines 171-176). -/
structure Holding where
  quantity : ℤ
  buy_price : ℤ
  current_value : ℤ
  profit_loss : ℤ
deriving DecidableEq

/-- `should_buy(analysis)` from strategy.py lines 118-134.  The guard is
Python's `all([analysis['ma5'], analysis['ma20'], analysis['rsi']])`, which
is falsy when any of the three is `None` or `0`; the decision is
`sum(conditions) >= 3`. -/
def should_buy (analysis : Option Analysis) : Bool :=
  match analysis with
  | none => false
  | some a =>
    if !(truthyQ a.ma5 && truthyQ a.ma20 && truthyQ a.rsi) then false
    else
      let conditions : List Bool :=
        [ decide (a.ma20.getD 0 < a.ma5.getD 0)
        , decide ((30 : ℚ) < a.rsi.getD 0) && decide (a.rsi.getD 0 < 70)
        , decide ((3 : ℚ) / 2 < a.volume_ratio)
        , decide ((-3 : ℚ) < a.change_rate) ]
      3 ≤ conditions.count true

/-- `should_sell(analysis, holding_info)` from strategy.py lines 136-158.
`none` models the `ZeroDivisionError` raised by the profit-rate division
when `buy_price == 0`; otherwise the result is `any(conditions)`. -/
def should_sell (analysis : Option Analysis) (holding_info : Option Holding)
    (stop_loss_ratio take_profit_ratio : ℚ) : Option Bool :=
  match analysis, holding_info with
  | some a, some h =>
    if h.buy_price = 0 then none
    else
      let profit_rate : ℚ := (a.current_price - (h.buy_price : ℚ)) / (h.buy_price : ℚ)
      some (decide (profit_rate ≤ -stop_loss_ratio)
        || decide (take_profit_ratio ≤ profit_rate)
        || (truthyQ a.ma5 && truthyQ a.ma20 && decide (a.ma5.getD 0 < a.ma20.getD 0))
        || (truthyQ a.rsi && decide ((80 : ℚ) < a.rsi.getD 0)))
  | _, _ => some false

/-- Buy rule as the claim words it: presence of ma5, ma20, rsi means the
field is not absent (`isSome`), and the decision is the 3-of-4 quorum. -/
def should_buy_claim (a : Analysis) : Bool :=
  if a.ma5.isSome && a.ma20.isSome && a.rsi.isSome then
    let conditions : List Bool :=
      [ decide (a.ma20.getD 0 < a.ma5.getD 0)
      , decide ((30 : ℚ) < a.rsi.getD 0) && decide (a.rsi.getD 0 < 70)
      , decide ((3 : ℚ) / 2 < a.volume_ratio)
      , decide ((-3 : ℚ) < a.change_rate) ]
    3 ≤ conditions.count true
  else false

/-- Sell rule as the claim words it: a logical OR of the four conditions,
with presence of ma5, ma20, rsi read as `isSome`. -/
def should_sell_claim (a : Analysis) (h : Holding)
    (stop_loss_ratio take_profit_ratio : ℚ) : Bool :=
  let profit_rate : ℚ := (a.current_price - (h.buy_price : ℚ)) / (h.buy_price : ℚ)
  decide (profit_rate ≤ -stop_loss_ratio)
    || decide (take_profit_ratio ≤ profit_rate)
    || (a.ma5.isSome && a.ma20.isSome && decide (a.ma5.getD 0 < a.ma20.getD 0))
    || (a.rsi.isSome && decide ((80 : ℚ) < a.rsi.getD 0))

/-! ### Position sizing (strategy.py lines 184-195) -/

/-- `calculate_position_size(stock_price, available_cash)` with the config
ratios passed explicitly; `int(...)` truncates toward zero and the result
is clamped by `max(quantity, 0)`. -/
def calculate_position_size (stock_price available_cash max_invest_ratio : ℚ)
    (max_position_count : ℚ) : ℤ :=
  let max_invest_amount := available_cash * max_invest_ratio
  let max_position_amount := max_invest_amount / max_position_count
  let quantity := pyTrunc (max_position_amount / stock_price)
  max quantity 0

/-! ### Portfolio reconstruction (strategy.py lines 160-182) -/

/-- One entry of `balance['stocks']` with the gateway's type coercions
(`int(...)`) already applied. -/
structure StockBal where
  pdno : String
  hldg_qty : ℤ
  pchs_avg_pric : ℤ
  evlu_amt : ℤ
  evlu_pfls_amt : ℤ
deriving DecidableEq

/-- The dict returned by `get_balance` (kis_open_api.py lines 214-217). -/
structure Balance where
  cash : ℤ
  stocks : List StockBal
deriving DecidableEq

/-- The portfolio dict returned by `get_portfolio_status`. Holdings are an
association list in Python dict insertion order with unique keys. -/
structure Portfolio where
  cash : ℤ
  holdings : List (String × Holding)
  position_count : Nat
deriving DecidableEq

/-- Python dict assignment `d[k] = v`: overwrite in place when the key
exists, else append at the end. -/
def dict_insert (d : List (String × Holding)) (k : String) (v : Holding) :
    List (String × Holding) :=
  if d.any (fun p => p.1 = k) then d.map (fun p => if p.1 = k then (k, v) else p)
  else d ++ [(k, v)]

/-- The loop body of `get_portfolio_status`: keep a stock only when
`int(stock['hldg_qty']) > 0`. -/
def holdings_of_stocks (stocks : List StockBal) : List (String × Holding) :=
  stocks.foldl
    (fun d s =>
      if 0 < s.hldg_qty then
        dict_insert d s.pdno ⟨s.hldg_qty, s.pchs_avg_pric, s.evlu_amt, s.evlu_pfls_amt⟩
      else d)
    []

/-- `get_portfolio_status` from strategy.py lines 160-182, as a function of
the balance payload the API returned (`none` when `get_balance` failed). -/
def get_portfolio_status (balance : Option Balance) : Option Portfolio :=
  match balance with
  | none => none
  | some b =>
    let holdings := holdings_of_stocks b.stocks
    some { cash := b.cash, holdings := holdings, position_count := holdings.length }

/-! ### Market hours and the strategy cycle (strategy.py lines 37-51, 197-292) -/

/-- `is_market_open` from strategy.py lines 37-51: weekday 0 = Monday,
`tsec` = seconds since local midnight; weekends are excluded and the
window [09:00, 15:30] is inclusive at both ends. -/
def is_market_open (weekday tsec : Nat) : Bool :=
  if 5 ≤ weekday then false
  else decide (9 * 3600 ≤ tsec) && decide (tsec ≤ 15 * 3600 + 30 * 60)

/-- One bar of `get_chart_data`, reduced to the fields `analyze_stock` reads. -/
structure Bar where
  close : ℚ
  volume : ℚ
deriving DecidableEq

/-- The dict returned by `get_current_price`, reduced to the fields read. -/
structure Quote where
  current_price : ℚ
  change_rate : ℚ
  volume : ℚ
deriving DecidableEq

/-- One outbound network call of the gateway during a cycle. -/
inductive ApiCall where
  | getBalance
  | getCurrentPrice (stock_code : String)
  | getChartData (stock_code : String)
  | buyOrder (stock_code : String) (quantity : ℤ)
  | sellOrder (stock_code : String) (quantity : ℤ)
deriving DecidableEq

/-- The remote environment: what each gateway operation would return
during this cycle (`none` = upstream failure surfaced as `None`). -/
structure Env where
  balance : Option Balance
  quote : String → Option Quote
  chart : String → Option (List Bar)

/-- The strategy configuration (strategy.py lines 20-24). -/
structure Config where
  watchlist : List String
  max_position_count : Nat
  max_invest_ratio : ℚ
  stop_loss_ratio : ℚ
  take_profit_ratio : ℚ

/-- `analyze_stock` from strategy.py lines 76-116: returns the analysis
(when both fetches succeed and the chart is a nonempty list) and the trace
of gateway calls made. -/
def analyze_stock (env : Env) (stock_code : String) : Option Analysis × List ApiCall :=
  match env.quote stock_code with
  | none => (none, [ApiCall.getCurrentPrice stock_code])
  | some q =>
    match env.chart stock_code with
    | none => (none, [ApiCall.getCurrentPrice stock_code, ApiCall.getChartData stock_code])
    | some bars =>
      if bars.isEmpty then
        (none, [ApiCall.getCurrentPrice stock_code, ApiCall.getChartData stock_code])
      else
        let closes := bars.map Bar.close
        let volumes := bars.map Bar.volume
        let avg_volume := (pySliceLast volumes 5).sum / 5
        (some { stock_code := stock_code
              , current_price := q.current_price
              , change_rate := q.change_rate
              , volume := q.volume
              , avg_volume := avg_volume
              , ma5 := calculate_moving_average closes 5
              , ma20 := calculate_moving_average closes 20
              , rsi := calculate_rsi closes 14
              , volume_ratio := if 0 < avg_volume then q.volume / avg_volume else 0 },
         [ApiCall.getCurrentPrice stock_code, ApiCall.getChartData stock_code])

/-- `execute_buy_order` from strategy.py lines 197-236: re-reads the
portfolio (one `getBalance` call), applies the holding/position/quantity
gates and submits a market buy when they pass; only the call trace is kept. -/
def execute_buy_order (env : Env) (cfg : Config) (stock_code : String)
    (a : Analysis) : List ApiCall :=
  match get_portfolio_status env.balance with
  | none => [ApiCall.getBalance]
  | some p =>
    if p.holdings.any (fun kv => kv.1 = stock_code) then [ApiCall.getBalance]
    else if cfg.max_position_count ≤ p.position_count then [ApiCall.getBalance]
    else
      let quantity := calculate_position_size a.current_price (p.cash : ℚ)
        cfg.max_invest_ratio (cfg.max_position_count : ℚ)
      if quantity ≤ 0 then [ApiCall.getBalance]
      else [ApiCall.getBalance, ApiCall.buyOrder stock_code quantity]

/-- The sell loop of `run_strategy` (strategy.py lines 276-280) over the
held positions in dict order.  The boolean is true when `should_sell`
raised (`buy_price == 0`), which aborts the rest of the cycle via the
outer `except`. -/
def sell_phase (env : Env) (cfg : Config) :
    List (String × Holding) → List ApiCall × Bool
  | [] => ([], false)
  | (stock_code, h) :: rest =>
    let r := analyze_stock env stock_code
    match r.1 with
    | none =>
      let t := sell_phase env cfg rest
      (r.2 ++ t.1, t.2)
    | some a =>
      match should_sell (some a) (some h) cfg.stop_loss_ratio cfg.take_profit_ratio with
      | none => (r.2, true)
      | some true =>
        let t := sell_phase env cfg rest
        (r.2 ++ ApiCall.sellOrder stock_code h.quantity :: t.1, t.2)
      | some false =>
        let t := sell_phase env cfg rest
        (r.2 ++ t.1, t.2)

/-- The buy loop of `run_strategy` (strategy.py lines 283-287) over the
watchlist. -/
def buy_phase (env : Env) (cfg : Config) : List String → List ApiCall
  | [] => []
  | stock_code :: rest =>
    let r := analyze_stock env stock_code
    match r.1 with
    | none => r.2 ++ buy_phase env cfg rest
    | some a =>
      if should_buy (some a) then
        r.2 ++ execute_buy_order env cfg stock_code a ++ buy_phase env cfg rest
      else r.2 ++ buy_phase env cfg rest

/-- `run_strategy` from strategy.py lines 258-292, as the trace of gateway
calls one cycle makes: empty when the market-hours gate fails, otherwise
one `getBalance` followed by the sell and buy phases (the latter skipped
when the sell phase raised). -/
def run_strategy (env : Env) (cfg : Config) (weekday tsec : Nat) : List ApiCall :=
  if !is_market_open weekday tsec then []
  else
    match get_portfolio_status env.balance with
    | none => [ApiCall.getBalance]
    | some p =>
      let s := sell_phase env cfg p.holdings
      if s.2 then ApiCall.getBalance :: s.1
      else ApiCall.getBalance :: (s.1 ++ buy_phase env cfg cfg.watchlist)

/-! ### Request executor (kis_open_api.py lines 108-153) -/

/-- What one attempt of `make_request` encounters at the transport layer. -/
inductive AttemptOutcome where
  | response (status : Nat)
  | connectTimeout
  | readTimeout
  | connectionError
  | otherError
deriving DecidableEq

/-- The exceptions `make_request` can raise. -/
inductive RequestError where
  | maxRetriesExceeded
  | connectionFailed
  | unexpected
  | requestFailed
deriving DecidableEq

/-- The observable behaviour of one `make_request` call: its result (the
returned response's status or the raised error), the number of attempts
made, and the backoff sleeps in order. -/
structure RequestTrace where
  result : Except RequestError Nat
  attempts : Nat
  sleeps : List Nat

/-- True for the outcomes whose handlers retry: connect timeout, read
timeout and connection error. -/
def isTransportFailure : AttemptOutcome → Bool
  | AttemptOutcome.connectTimeout => true
  | AttemptOutcome.readTimeout => true
  | AttemptOutcome.connectionError => true
  | _ => false

/-- The `for attempt in range(max_retries)` loop of `make_request`.
`fuel` is the number of remaining iterations (`max_retries - attempt`), so
Python's `attempt < max_retries - 1` is `0 < fuel` after peeling one
iteration; a retry sleeps `2 ** attempt` seconds first. -/
def make_request_aux (o : Nat → AttemptOutcome) : Nat → Nat → RequestTrace
  | 0, attempt => ⟨Except.error RequestError.requestFailed, attempt, []⟩
  | fuel + 1, attempt =>
    match o attempt with
    | AttemptOutcome.response s => ⟨Except.ok s, attempt + 1, []⟩
    | AttemptOutcome.connectTimeout =>
      if 0 < fuel then
        let t := make_request_aux o fuel (attempt + 1)
        ⟨t.result, t.attempts, 2 ^ attempt :: t.sleeps⟩
      else ⟨Except.error RequestError.maxRetriesExceeded, attempt + 1, []⟩
    | AttemptOutcome.readTimeout =>
      if 0 < fuel then
        let t := make_request_aux o fuel (attempt + 1)
        ⟨t.result, t.attempts, 2 ^ attempt :: t.sleeps⟩
      else ⟨Except.error RequestError.maxRetriesExceeded, attempt + 1, []⟩
    | AttemptOutcome.connectionError =>
      if 0 < fuel then
        let t := make_request_aux o fuel (attempt + 1)
        ⟨t.result, t.attempts, 2 ^ attempt :: t.sleeps⟩
      else ⟨Except.error RequestError.connectionFailed, attempt + 1, []⟩
    | AttemptOutcome.otherError => ⟨Except.error RequestError.unexpected, attempt + 1, []⟩

/-- `make_request` from kis_open_api.py lines 108-153 as a function of the
per-attempt transport outcomes. -/
def make_request (o : Nat → AttemptOutcome) (max_retries : Nat := 3) : RequestTrace :=
  make_request_aux o max_retries 0

/-! ### Order submission (api.py lines 132-217, kis_open_api.py lines 220-305) -/

/-- The JSON body both order methods POST to the broker. -/
structure OrderPayload where
  cano : String
  acnt_prdt_cd : String
  pdno : String
  ord_dvsn : String
  ord_qty : String
  ord_unpr : String
deriving DecidableEq

/-- `buy_order(stock_code, quantity, price=0, order_type="01")` from
api.py lines 132-161: `price == 0` forces order type `"01"` (market) and
price string `"0"`, anything else forces `"00"` (limit) and `str(price)`;
the `order_type` argument is overwritten in both branches. -/
def buy_order_data (account_no stock_code : String) (quantity price : ℤ)
    (order_type : String) : OrderPayload :=
  let resolved : String × String :=
    if price = 0 then ("01", "0") else ("00", toString price)
  { cano := ((account_no.splitOn "-").getD 0 "")
  , acnt_prdt_cd := ((account_no.splitOn "-").getD 1 "")
  , pdno := stock_code
  , ord_dvsn := resolved.1
  , ord_qty := toString quantity
  , ord_unpr := resolved.2 }

/-- `sell_order(stock_code, quantity, price=0, order_type="01")` from
api.py lines 179-200: the body duplicates `buy_order`'s resolution. -/
def sell_order_data (account_no stock_code : String) (quantity price : ℤ)
    (order_type : String) : OrderPayload :=
  let resolved : String × String :=
    if price = 0 then ("01", "0") else ("00", toString price)
  { cano := ((account_no.splitOn "-").getD 0 "")
  , acnt_prdt_cd := ((account_no.splitOn "-").getD 1 "")
  , pdno := stock_code
  , ord_dvsn := resolved.1
  , ord_qty := toString quantity
  , ord_unpr := resolved.2 }

/-! ### Concrete records used to evaluate the definitions -/

/-- An analysis with ma5, ma20, rsi all present, rsi equal to 0 (which the
code can produce on a strictly falling window) and three of the four buy
conditions true. -/
def buy_cex_analysis : Analysis :=
  { stock_code := "005930", current_price := 100, change_rate := 0, volume := 10
  , avg_volume := 5, ma5 := some 2, ma20 := some 1, rsi := some 0, volume_ratio := 2 }

/-- An analysis with all buy conditions satisfied and ma5, ma20, rsi truthy. -/
def buy_ok_analysis : Analysis :=
  { stock_code := "005930", current_price := 100, change_rate := 0, volume := 10
  , avg_volume := 5, ma5 := some 2, ma20 := some 1, rsi := some 50, volume_ratio := 2 }

/-- An analysis whose ma5 is present but equal to 0 and below ma20. -/
def sell_cex_analysis : Analysis :=
  { stock_code := "005930", current_price := 100, change_rate := 0, volume := 10
  , avg_volume := 5, ma5 := some 0, ma20 := some 5, rsi := none, volume_ratio := 0 }

/-- A holding bought at 100, currently flat. -/
def sell_cex_holding : Holding := ⟨10, 100, 1000, 0⟩

/-- An analysis with rsi 90, triggering only the overbought sell condition. -/
def sell_rsi_analysis : Analysis :=
  { stock_code := "005930", current_price := 100, change_rate := 0, volume := 10
  , avg_volume := 5, ma5 := none, ma20 := none, rsi := some 90, volume_ratio := 0 }

/-- An arbitrary analysis used with the zero-cost holding. -/
def flat_analysis : Analysis :=
  { stock_code := "005930", current_price := 100, change_rate := 0, volume := 10
  , avg_volume := 5, ma5 := none, ma20 := none, rsi := none, volume_ratio := 0 }

/-- A holding reported with positive quantity but average purchase price 0. -/
def zero_cost_holding : Holding := ⟨10, 0, 0, 0⟩

/-- A balance payload holding one symbol with quantity 10 at price 0. -/
def zero_cost_balance : Balance := ⟨100, [⟨"A", 10, 0, 0, 0⟩]⟩

/-- A balance payload with one zero-quantity symbol and one with quantity 10. -/
def qty_demo_balance : Balance := ⟨500, [⟨"A", 0, 1, 1, 1⟩, ⟨"B", 10, 7, 8, 9⟩]⟩

/-- A balance payload whose reported deposit total is negative. -/
def neg_cash_balance : Balance := ⟨-1, []⟩

/-- An environment whose every fetch fails. -/
def demo_env : Env := ⟨none, fun _ => none, fun _ => none⟩

/-- The default configuration values of strategy.py lines 20-24. -/
def demo_cfg : Config := ⟨[], 5, 8 / 10, 1 / 20, 1 / 10⟩

/-- A transport schedule: attempt 0 times out on connect, attempt 1 gets an
HTTP 200 response. -/
def demo_outcomes : Nat → AttemptOutcome :=
  fun j => if j = 0 then AttemptOutcome.connectTimeout else AttemptOutcome.response 200

/-- Fifteen strictly rising closes: enough history for the default RSI. -/
def rsi_demo_prices : List ℚ := [1, 2, 3, 4, 5, 6, 7, 8, 9, 10, 11, 12, 13, 14, 15]

/-! ## Helper lemmas -/

theorem max_pyTrunc_eq_max_floor (x : ℚ) : max (pyTrunc x) 0 = max ⌊x⌋ 0 := by
  unfold pyTrunc
  split_ifs with hx
  · have h1 : ⌈x⌉ ≤ 0 := Int.ceil_le.2 (by exact_mod_cast hx.le)
    have h2 : ⌊x⌋ ≤ 0 := Int.floor_nonpos hx.le
    omega
  · rfl

theorem mem_pySliceLast {x : ℚ} {l : List ℚ} {n : Nat} (h : x ∈ pySliceLast l n) :
    x ∈ l := by
  unfold pySliceLast at h
  split_ifs at h with h0
  · exact h
  · exact (List.drop_sublist _ _).mem h

theorem pySliceLast_map (f : ℚ → ℚ) (l : List ℚ) (n : Nat) :
    pySliceLast (l.map f) n = (pySliceLast l n).map f := by
  unfold pySliceLast
  split_ifs with h0
  · rfl
  · rw [List.length_map, List.map_drop]

theorem avg_gain_nonneg (prices : List ℚ) (period : Nat) :
    0 ≤ avg_gain prices period := by
  unfold avg_gain
  apply div_nonneg _ (by positivity)
  apply List.sum_nonneg
  intro x hx
  have hx' := mem_pySliceLast hx
  unfold gains at hx'
  obtain ⟨d, _, rfl⟩ := List.mem_map.1 hx'
  split_ifs with hd
  · exact hd.le
  · exact le_refl 0

theorem avg_loss_nonneg (prices : List ℚ) (period : Nat) :
    0 ≤ avg_loss prices period := by
  unfold avg_loss
  apply div_nonneg _ (by positivity)
  apply List.sum_nonneg
  intro x hx
  have hx' := mem_pySliceLast hx
  unfold losses at hx'
  obtain ⟨d, _, rfl⟩ := List.mem_map.1 hx'
  split_ifs with hd
  · linarith
  · exact le_refl 0

theorem truthyQ_isSome {x : Option ℚ} (h : truthyQ x = true) : x.isSome = true := by
  cases x <;> simp [truthyQ] at h ⊢

theorem dict_insert_quantity_pos {d : List (String × Holding)} {k : String}
    {v : Holding} (hd : ∀ kv ∈ d, 0 < kv.2.quantity) (hv : 0 < v.quantity) :
    ∀ kv ∈ dict_insert d k v, 0 < kv.2.quantity := by
  intro kv hkv
  unfold dict_insert at hkv
  split_ifs at hkv with hmem
  · obtain ⟨p, hp, rfl⟩ := List.mem_map.1 hkv
    split_ifs
    · exact hv
    · exact hd p hp
  · rcases List.mem_append.1 hkv with h | h
    · exact hd kv h
    · rcases List.mem_singleton.1 h with rfl
      exact hv

theorem holdings_of_stocks_quantity_pos (stocks : List StockBal) :
    ∀ kv ∈ holdings_of_stocks stocks, 0 < kv.2.quantity := by
  unfold holdings_of_stocks
  suffices h : ∀ (d : List (String × Holding)), (∀ kv ∈ d, 0 < kv.2.quantity) →
      ∀ kv ∈ stocks.foldl
        (fun d s =>
          if 0 < s.hldg_qty then
            dict_insert d s.pdno ⟨s.hldg_qty, s.pchs_avg_pric, s.evlu_amt, s.evlu_pfls_amt⟩
          else d) d, 0 < kv.2.quantity by
    exact h [] (by simp)
  induction stocks with
  | nil => intro d hd; simpa using hd
  | cons s rest ih =>
    intro d hd
    simp only [List.foldl_cons]
    apply ih
    split_ifs with hq
    · exact dict_insert_quantity_pos hd hq
    · exact hd

/-! ## Claim C4: order-type resolution -/

/-- C4: in both `buy_order` and `sell_order` the transmitted order type is
determined solely by the price: price 0 gives a market order (code "01",
price string "0"), any other price a limit order (code "00", the price
stringified); the quantity is stringified as given and the `order_type`
argument never influences the payload. -/
theorem order_type_resolution (account_no stock_code : String)
    (quantity price : ℤ) (order_type order_type' : String) :
    buy_order_data account_no stock_code quantity price order_type =
      buy_order_data account_no stock_code quantity price order_type' ∧
    sell_order_data account_no stock_code quantity price order_type =
      buy_order_data account_no stock_code quantity price order_type ∧
    (buy_order_data account_no stock_code quantity price order_type).ord_qty =
      toString quantity ∧
    (price = 0 →
      (buy_order_data account_no stock_code quantity price order_type).ord_dvsn = "01" ∧
      (buy_order_data account_no stock_code quantity price order_type).ord_unpr = "0") ∧
    (price ≠ 0 →
      (buy_order_data account_no stock_code quantity price order_type).ord_dvsn = "00" ∧
      (buy_order_data account_no stock_code quantity price order_type).ord_unpr =
        toString price) := by
  refine ⟨rfl, rfl, rfl, ?_, ?_⟩
  · intro h
    simp [buy_order_data, h]
  · intro h
    simp [buy_order_data, h]

/-- Witness for C4 at price 0 and price 500. -/
theorem order_type_resolution_witness :
    ((5 : ℤ) ≠ 0 ∧
      (buy_order_data "12345678-01" "005930" 3 0 "77").ord_dvsn = "01" ∧
      (buy_order_data "12345678-01" "005930" 3 0 "77").ord_unpr = "0") ∧
    (buy_order_data "12345678-01" "005930" 7 5 "01").ord_dvsn = "00" := by
  have h0 := (order_type_resolution "12345678-01" "005930" 3 0 "77" "77").2.2.2.1 rfl
  have h5 := (order_type_resolution "12345678-01" "005930" 7 5 "01" "01").2.2.2.2
    (by norm_num)
  exact ⟨⟨by norm_num, h0⟩, h5.1⟩

/-! ## Claim C7: position sizing -/

/-- C7: for positive price and nonnegative cash, `calculate_position_size`
equals `max(floor(cash * ratio / count / price), 0)`, is nonnegative, and
evaluates to 3 on the documented example. -/
theorem calculate_position_size_spec
    (stock_price available_cash max_invest_ratio max_position_count : ℚ)
    (h1 : 0 < stock_price) (h2 : 0 ≤ available_cash) :
    calculate_position_size stock_price available_cash max_invest_ratio
        max_position_count =
      max ⌊available_cash * max_invest_ratio / max_position_count / stock_price⌋ 0 ∧
    0 ≤ calculate_position_size stock_price available_cash max_invest_ratio
        max_position_count ∧
    calculate_position_size 50000 1000000 (8 / 10) 5 = 3 := by
  refine ⟨max_pyTrunc_eq_max_floor _, le_max_right _ _, ?_⟩
  norm_num [calculate_position_size, pyTrunc]

/-- Witness for C7 at the documented example input. -/
theorem calculate_position_size_spec_witness :
    (0 : ℚ) < 50000 ∧ (0 : ℚ) ≤ 1000000 ∧
    calculate_position_size 50000 1000000 (8 / 10) 5 = 3 := by
  have h := calculate_position_size_spec 50000 1000000 (8 / 10) 5
    (by norm_num) (by norm_num)
  exact ⟨by norm_num, by norm_num, h.2.2⟩

/-! ## Claim C8: market-hours gate -/

/-- C8: `is_market_open` holds exactly on Monday-Friday with the local
time inside the inclusive window [09:00, 15:30] (in seconds since
midnight), and when it is false `run_strategy` returns with an empty
trace of gateway calls. -/
theorem market_gate_spec (env : Env) (cfg : Config) (weekday tsec : Nat) :
    (is_market_open weekday tsec = true ↔
      (weekday < 5 ∧ 9 * 3600 ≤ tsec ∧ tsec ≤ 15 * 3600 + 30 * 60)) ∧
    (is_market_open weekday tsec = false → run_strategy env cfg weekday tsec = []) := by
  constructor
  · unfold is_market_open
    split_ifs with h
    · simp
      omega
    · simp
      omega
  · intro h
    unfold run_strategy
    rw [h]
    rfl

/-- Witness for C8: a Saturday morning is outside market hours and the
cycle makes no gateway call. -/
theorem market_gate_spec_witness :
    is_market_open 5 36000 = false ∧ run_strategy demo_env demo_cfg 5 36000 = [] := by
  have h : is_market_open 5 36000 = false := rfl
  exact ⟨h, (market_gate_spec demo_env demo_cfg 5 36000).2 h⟩

/-! ## Claim C9: portfolio reconstruction invariants -/

/-- C9 counterexample: the cash invariant fails as claimed, because the
broker-reported deposit total is passed through unchanged: a payload
reporting cash -1 yields a portfolio whose cash is -1 < 0. -/
theorem get_portfolio_status_neg_cash :
    get_portfolio_status (some neg_cash_balance) = some ⟨-1, [], 0⟩ ∧
    (-1 : ℤ) < 0 := by
  constructor
  · rfl
  · norm_num

/-- C9 amended: for every balance payload the portfolio satisfies
`position_count = len(holdings)`, every produced holding has positive
quantity (zero-quantity rows are excluded, so the documented two-row
payload yields position_count 1), and cash is the payload cash unchanged
(hence nonnegative exactly when the broker reports it nonnegative). -/
theorem get_portfolio_status_spec (b : Balance) :
    get_portfolio_status (some b) =
      some { cash := b.cash
           , holdings := holdings_of_stocks b.stocks
           , position_count := (holdings_of_stocks b.stocks).length } ∧
    (∀ kv ∈ holdings_of_stocks b.stocks, 0 < kv.2.quantity) ∧
    (get_portfolio_status (some qty_demo_balance)).map Portfolio.position_count =
      some 1 := by
  refine ⟨rfl, holdings_of_stocks_quantity_pos b.stocks, ?_⟩
  rfl

/-! ## Claim C10: zero-cost holdings crash the sell rule -/

/-- C10: whenever the holding's buy price is 0, the profit-rate division
in `should_sell` raises (modelled as `none`) for every analysis record;
and `get_portfolio_status` can produce exactly such a holding, since it
filters only on positive quantity, not on positive purchase price. -/
theorem should_sell_zero_buy_price (a : Analysis) (h : Holding) (sl tp : ℚ)
    (hb : h.buy_price = 0) :
    should_sell (some a) (some h) sl tp = none ∧
    ∃ p, get_portfolio_status (some zero_cost_balance) = some p ∧
      (∀ kv ∈ p.holdings, 0 < kv.2.quantity) ∧
      ∃ kv ∈ p.holdings, kv.2.buy_price = 0 := by
  constructor
  · simp only [should_sell]
    rw [if_pos hb]
  · refine ⟨_, rfl, ?_, ?_⟩
    · intro kv hkv
      simp only [zero_cost_balance] at hkv
      exact holdings_of_stocks_quantity_pos _ kv hkv
    · exact ⟨("A", ⟨10, 0, 0, 0⟩), by decide, rfl⟩

/-- Witness for C10 at a concrete flat analysis and the zero-cost holding. -/
theorem should_sell_zero_buy_price_witness :
    zero_cost_holding.buy_price = 0 ∧
    should_sell (some flat_analysis) (some zero_cost_holding) (1 / 20) (1 / 10) =
      none := by
  exact ⟨rfl,
    (should_sell_zero_buy_price flat_analysis zero_cost_holding (1 / 20) (1 / 10) rfl).1⟩

/-! ## Claim C1: buy rule -/

/-- C1 counterexample: an analysis in which ma5, ma20 and rsi are all
present (rsi = 0, reachable on a strictly falling window) and three of the
four conditions hold, yet `should_buy` returns false because Python's
`all([...])` guard treats the value 0 as absent. -/
theorem should_buy_presence_cex :
    should_buy (some buy_cex_analysis) = false ∧
    should_buy_claim buy_cex_analysis = true := by
  constructor
  · norm_num [should_buy, buy_cex_analysis, truthyQ]
  · norm_num [should_buy_claim, buy_cex_analysis, List.count_cons, List.count_nil]

/-- C1 corrected: `should_buy` is the claim's 3-of-4 quorum rule guarded
by presence AND nonzeroness (Python truthiness) of ma5, ma20, rsi: it
returns true iff all three are truthy and at least 3 of the 4 conditions
hold, and returns false on an absent analysis. -/
theorem should_buy_truthiness_quorum :
    (∀ a : Analysis, should_buy (some a) =
      (truthyQ a.ma5 && truthyQ a.ma20 && truthyQ a.rsi && should_buy_claim a)) ∧
    should_buy none = false := by
  refine ⟨?_, rfl⟩
  intro a
  by_cases h5 : truthyQ a.ma5 = true
  · by_cases h20 : truthyQ a.ma20 = true
    · by_cases hr : truthyQ a.rsi = true
      · have s5 := truthyQ_isSome h5
        have s20 := truthyQ_isSome h20
        have sr := truthyQ_isSome hr
        simp [should_buy, should_buy_claim, h5, h20, hr, s5, s20, sr]
      · rw [Bool.not_eq_true] at hr
        simp [should_buy, hr]
    · rw [Bool.not_eq_true] at h20
      simp [should_buy, h20]
  · rw [Bool.not_eq_true] at h5
    simp [should_buy, h5]

/-! ## Claim C2: sell rule -/

/-- C2 counterexample: with a present holding, an analysis whose ma5 is
present but equal to 0 and below ma20 satisfies the claim's dead-cross
condition, yet `should_sell` returns false because Python's `and` chain
treats the value 0 as false. -/
theorem should_sell_presence_cex :
    should_sell (some sell_cex_analysis) (some sell_cex_holding) (1 / 20) (1 / 10) =
      some false ∧
    should_sell_claim sell_cex_analysis sell_cex_holding (1 / 20) (1 / 10) = true := by
  constructor
  · norm_num [should_sell, sell_cex_analysis, sell_cex_holding, truthyQ]
  · norm_num [should_sell_claim, sell_cex_analysis, sell_cex_holding]

/-- C2 corrected: for a present analysis and holding with nonzero buy
price (a zero buy price raises instead of returning), `should_sell`
returns true iff at least one of the four conditions holds, where the
dead-cross condition additionally requires ma5 and ma20 to be nonzero
(Python truthiness); the decision is a logical OR, not a quorum. -/
theorem should_sell_or_rule (a : Analysis) (h : Holding) (sl tp : ℚ)
    (hb : h.buy_price ≠ 0) :
    (should_sell (some a) (some h) sl tp = some true ↔
      ((a.current_price - (h.buy_price : ℚ)) / (h.buy_price : ℚ) ≤ -sl ∨
       tp ≤ (a.current_price - (h.buy_price : ℚ)) / (h.buy_price : ℚ) ∨
       (truthyQ a.ma5 = true ∧ truthyQ a.ma20 = true ∧ a.ma5.getD 0 < a.ma20.getD 0) ∨
       (truthyQ a.rsi = true ∧ (80 : ℚ) < a.rsi.getD 0))) ∧
    should_sell (some a) (some h) sl tp ≠ none := by
  constructor
  · simp only [should_sell, if_neg hb]
    simp [Bool.or_eq_true, Bool.and_eq_true, decide_eq_true_eq, and_assoc, or_assoc]
  · simp only [should_sell, if_neg hb]
    simp

/-- Witness for C2: a holding bought at 100 and an analysis with rsi 90
trigger the overbought condition alone and yield a sell. -/
theorem should_sell_or_rule_witness :
    sell_cex_holding.buy_price ≠ 0 ∧
    should_sell (some sell_rsi_analysis) (some sell_cex_holding) (1 / 20) (1 / 10) =
      some true := by
  have hb : sell_cex_holding.buy_price ≠ 0 := by norm_num [sell_cex_holding]
  refine ⟨hb, ?_⟩
  exact (should_sell_or_rule sell_rsi_analysis sell_cex_holding (1 / 20) (1 / 10) hb).1.mpr
    (Or.inr (Or.inr (Or.inr ⟨rfl, by norm_num [sell_rsi_analysis]⟩)))

/-! ## Claim C5: RSI computation -/

/-- C5: `calculate_rsi` returns `none` for fewer than `period + 1` closes;
otherwise it returns `100 - 100 / (1 + avg_gain / avg_loss)` where the
averages run over the last `period` deltas, returning exactly 100 when
`avg_loss = 0`, in particular whenever every delta in the window is
nonnegative. -/
theorem calculate_rsi_spec (prices : List ℚ) (period : Nat) :
    (prices.length < period + 1 → calculate_rsi prices period = none) ∧
    (period + 1 ≤ prices.length →
      calculate_rsi prices period =
        some (if avg_loss prices period = 0 then 100
              else 100 - 100 / (1 + avg_gain prices period / avg_loss prices period))) ∧
    (period + 1 ≤ prices.length →
      (∀ d ∈ pySliceLast (deltas prices) period, 0 ≤ d) →
      calculate_rsi prices period = some 100) := by
  refine ⟨?_, ?_, ?_⟩
  · intro h
    unfold calculate_rsi
    rw [if_pos h]
  · intro h
    unfold calculate_rsi
    rw [if_neg (not_lt.2 h)]
    split_ifs <;> rfl
  · intro h hnn
    have hmap : pySliceLast (losses prices) period =
        (pySliceLast (deltas prices) period).map (fun d => if d < 0 then -d else 0) := by
      unfold losses
      exact pySliceLast_map _ _ _
    have hz : avg_loss prices period = 0 := by
      have hsum : (pySliceLast (losses prices) period).sum = 0 := by
        rw [hmap]
        apply List.sum_eq_zero
        intro x hx
        obtain ⟨d, hd, rfl⟩ := List.mem_map.1 hx
        rw [if_neg (not_lt.2 (hnn d hd))]
      unfold avg_loss
      rw [hsum, zero_div]
    unfold calculate_rsi
    rw [if_neg (not_lt.2 h), if_pos hz]

/-- Witness for C5: fifteen rising closes give a full default window of
nonnegative deltas and an RSI of exactly 100. -/
theorem calculate_rsi_spec_witness :
    14 + 1 ≤ rsi_demo_prices.length ∧
    (∀ d ∈ pySliceLast (deltas rsi_demo_prices) 14, 0 ≤ d) ∧
    calculate_rsi rsi_demo_prices 14 = some 100 := by
  have h1 : 14 + 1 ≤ rsi_demo_prices.length := by norm_num [rsi_demo_prices]
  have h2 : ∀ d ∈ pySliceLast (deltas rsi_demo_prices) 14, 0 ≤ d := by
    norm_num [rsi_demo_prices, deltas, pySliceLast, List.zipWith, List.forall_mem_cons]
  exact ⟨h1, h2, (calculate_rsi_spec rsi_demo_prices 14).2.2 h1 h2⟩

/-! ## Claim C6: RSI bounds -/

/-- C6: every value `calculate_rsi` returns lies in the closed interval
[0, 100]. -/
theorem calculate_rsi_bounds (prices : List ℚ) (period : Nat) (r : ℚ)
    (h : calculate_rsi prices period = some r) : 0 ≤ r ∧ r ≤ 100 := by
  unfold calculate_rsi at h
  split_ifs at h with h1 h2
  · obtain rfl : (100 : ℚ) = r := Option.some.inj h
    norm_num
  · obtain rfl :
        100 - 100 / (1 + avg_gain prices period / avg_loss prices period) = r :=
      Option.some.inj h
    have hg := avg_gain_nonneg prices period
    have hl0 := avg_loss_nonneg prices period
    have hl : 0 < avg_loss prices period := lt_of_le_of_ne hl0 (Ne.symm h2)
    have hrs : 0 ≤ avg_gain prices period / avg_loss prices period :=
      div_nonneg hg hl.le
    have hpos : 0 < 1 + avg_gain prices period / avg_loss prices period := by linarith
    have hle : 100 / (1 + avg_gain prices period / avg_loss prices period) ≤ 100 := by
      rw [div_le_iff₀ hpos]
      nlinarith
    have hgt : 0 < 100 / (1 + avg_gain prices period / avg_loss prices period) :=
      div_pos (by norm_num) hpos
    constructor <;> linarith

/-- Witness for C6 on a two-element series with RSI period 1. -/
theorem calculate_rsi_bounds_witness :
    calculate_rsi [1, 2] 1 = some 100 ∧ (0 ≤ (100 : ℚ) ∧ (100 : ℚ) ≤ 100) := by
  have h : calculate_rsi [1, 2] 1 = some 100 := by
    norm_num [calculate_rsi, avg_loss, losses, deltas, pySliceLast, List.zipWith]
  exact ⟨h, calculate_rsi_bounds [1, 2] 1 100 h⟩

/-! ## Claim C3: request executor retry policy -/

theorem make_request_aux_transport (o : Nat → AttemptOutcome) (fuel attempt : Nat)
    (h : isTransportFailure (o attempt) = true) (hf : 0 < fuel) :
    make_request_aux o (fuel + 1) attempt =
      ⟨(make_request_aux o fuel (attempt + 1)).result,
       (make_request_aux o fuel (attempt + 1)).attempts,
       2 ^ attempt :: (make_request_aux o fuel (attempt + 1)).sleeps⟩ := by
  cases ho : o attempt <;>
    simp [make_request_aux, ho, isTransportFailure, hf] at h ⊢

theorem make_request_aux_exhaust (o : Nat → AttemptOutcome) :
    ∀ fuel attempt, 0 < fuel →
      (∀ j, attempt ≤ j → j < attempt + fuel → isTransportFailure (o j) = true) →
      ∃ e, e ≠ RequestError.requestFailed ∧
        make_request_aux o fuel attempt =
          ⟨Except.error e, attempt + fuel,
           (List.range' attempt (fuel - 1)).map (fun j => 2 ^ j)⟩ := by
  intro fuel
  induction fuel with
  | zero => intro attempt h; exact absurd h (lt_irrefl 0)
  | succ f ih =>
    intro attempt _ hall
    have ht : isTransportFailure (o attempt) = true := hall attempt le_rfl (by omega)
    by_cases hf : 0 < f
    · rw [make_request_aux_transport o f attempt ht hf]
      obtain ⟨e, he, heq⟩ :=
        ih (attempt + 1) hf (fun j hj1 hj2 => hall j (by omega) (by omega))
      refine ⟨e, he, ?_⟩
      rw [heq]
      obtain ⟨f1, rfl⟩ : ∃ f1, f = f1 + 1 := ⟨f - 1, by omega⟩
      simp [List.range']
      omega
    · have hf0 : f = 0 := by omega
      subst hf0
      cases ho : o attempt with
      | response s => simp [isTransportFailure, ho] at ht
      | otherError => simp [isTransportFailure, ho] at ht
      | connectTimeout =>
        refine ⟨RequestError.maxRetriesExceeded, by simp, ?_⟩
        simp [make_request_aux, ho, List.range']
      | readTimeout =>
        refine ⟨RequestError.maxRetriesExceeded, by simp, ?_⟩
        simp [make_request_aux, ho, List.range']
      | connectionError =>
        refine ⟨RequestError.connectionFailed, by simp, ?_⟩
        simp [make_request_aux, ho, List.range']

theorem make_request_aux_run_prefix (o : Nat → AttemptOutcome) :
    ∀ (k fuel attempt : Nat),
      (∀ j, attempt ≤ j → j < attempt + k → isTransportFailure (o j) = true) →
      k < fuel →
      make_request_aux o fuel attempt =
        ⟨(make_request_aux o (fuel - k) (attempt + k)).result,
         (make_request_aux o (fuel - k) (attempt + k)).attempts,
         (List.range' attempt k).map (fun j => 2 ^ j) ++
           (make_request_aux o (fuel - k) (attempt + k)).sleeps⟩ := by
  intro k
  induction k with
  | zero =>
    intro fuel attempt _ _
    simp [List.range']
  | succ k ih =>
    intro fuel attempt hall hk
    obtain ⟨f, rfl⟩ : ∃ f, fuel = f + 1 := ⟨fuel - 1, by omega⟩
    have hf : 0 < f := by omega
    have ht : isTransportFailure (o attempt) = true := hall attempt le_rfl (by omega)
    rw [make_request_aux_transport o f attempt ht hf]
    have hrec := ih f (attempt + 1)
      (fun j hj1 hj2 => hall j (by omega) (by omega)) (by omega)
    rw [hrec]
    have e1 : f + 1 - (k + 1) = f - k := by omega
    have e2 : attempt + 1 + k = attempt + (k + 1) := by omega
    simp [e1, e2, List.range']

/-- C3: an attempt that receives an HTTP response makes `make_request`
return that response at once, whatever its status, with no further attempts;
an unexpected (non-transport) exception is re-raised at once; each retried
attempt `j` sleeps `2 ^ j` seconds first, so `i` leading transport failures
produce sleeps `2^0, ..., 2^(i-1)`; and when all `n` attempts fail at the
transport level an error is raised after exactly `n` attempts. -/
theorem make_request_spec (o : Nat → AttemptOutcome) (n i : Nat)
    (hpre : ∀ j, j < i → isTransportFailure (o j) = true) (hi : i < n) :
    (∀ s, o i = AttemptOutcome.response s →
      make_request o n =
        ⟨Except.ok s, i + 1, (List.range i).map (fun j => 2 ^ j)⟩) ∧
    (o i = AttemptOutcome.otherError →
      make_request o n =
        ⟨Except.error RequestError.unexpected, i + 1,
         (List.range i).map (fun j => 2 ^ j)⟩) ∧
    ((∀ j, j < n → isTransportFailure (o j) = true) →
      ∃ e, e ≠ RequestError.requestFailed ∧
        make_request o n =
          ⟨Except.error e, n, (List.range (n - 1)).map (fun j => 2 ^ j)⟩) := by
  have hrun := make_request_aux_run_prefix o i n 0
    (fun j hj1 hj2 => hpre j (by omega)) hi
  obtain ⟨m, hm⟩ : ∃ m, n - i = m + 1 := ⟨n - i - 1, by omega⟩
  refine ⟨?_, ?_, ?_⟩
  · intro s hs
    unfold make_request
    rw [hrun, hm]
    simp [make_request_aux, hs, List.range_eq_range']
  · intro hs
    unfold make_request
    rw [hrun, hm]
    simp [make_request_aux, hs, List.range_eq_range']
  · intro hall
    obtain ⟨e, he, heq⟩ := make_request_aux_exhaust o n 0 (by omega)
      (fun j hj1 hj2 => hall j (by omega))
    refine ⟨e, he, ?_⟩
    unfold make_request
    rw [heq]
    simp [List.range_eq_range']

/-- Witness for C3: one connect timeout then an HTTP 200; the call returns
the response on the second of three allowed attempts after a 1-second
backoff, leaving the third attempt unused. -/
theorem make_request_spec_witness :
    (∀ j, j < 1 → isTransportFailure (demo_outcomes j) = true) ∧ 1 < 3 ∧
    make_request demo_outcomes 3 = ⟨Except.ok 200, 2, [1]⟩ := by
  have h1 : ∀ j, j < 1 → isTransportFailure (demo_outcomes j) = true := by
    intro j hj
    interval_cases j
    rfl
  refine ⟨h1, by norm_num, ?_⟩
  have h := (make_request_spec demo_outcomes 3 1 h1 (by norm_num)).1 200 rfl
  simpa using h

end AutoTrading
